import Mathlib

/-!
Shallow embedding of `migrate_to_uv.py`, a single-file CLI that migrates a
project's package management from Poetry to UV.

The filesystem is modelled as a map from path strings to optional file
contents (`none` = the path does not exist; for the `.venv` directory the
content is irrelevant, only presence matters).  External commands are
modelled by an oracle `Env` mapping each command string to either a return
code or a `Fault` (a `KeyboardInterrupt` or any other exception raised
while the command runs); `run_command` mirrors the Python helper, which
catches only `CalledProcessError` (raised when `check=True` and the return
code is non-zero) and lets every other exception propagate.
-/

namespace MigrateToUv

/-- The filesystem: path → optional content. -/
abbrev FS := String → Option String

/-- `Path(p).exists()`. -/
def pathExists (fs : FS) (p : String) : Bool := (fs p).isSome

/-- `shutil.copy2(src, dst)`: the destination takes the source's content. -/
def copy2 (src dst : String) (fs : FS) : FS :=
  fun p => if p = dst then fs src else fs p

/-- `path.unlink()` / `shutil.rmtree(path)`: the path no longer exists. -/
def removePath (target : String) (fs : FS) : FS :=
  fun p => if p = target then none else fs p

/-- An exception that a step may raise: a user interruption
(`KeyboardInterrupt`) or any other uncaught exception. -/
inductive Fault where
  | interrupt : Fault
  | exception : Fault
deriving DecidableEq

/-- Oracle for external commands: each invocation either completes with
a return code or raises a fault. -/
abbrev Env := String → Except Fault Int

/-- The slice of `subprocess.run`'s result that the script inspects. -/
structure CmdResult where
  returncode : Int
deriving DecidableEq

/-- `run_command(cmd, check)`: with `check=True` a non-zero return code
raises `CalledProcessError`, which is caught and turned into `None`;
faults (interrupts, other exceptions) propagate. -/
def run_command (env : Env) (cmd : String) (check : Bool) :
    Except Fault (Option CmdResult) :=
  match env cmd with
  | .error f => .error f
  | .ok rc => if check ∧ rc ≠ 0 then .ok none else .ok (some ⟨rc⟩)

/-- `check_prerequisites()`: requires `pyproject.toml` to exist and
`uv --version` to succeed; the `poetry --version` probe is advisory. -/
def check_prerequisites (env : Env) (fs : FS) : Except Fault Bool :=
  if ¬ pathExists fs "pyproject.toml" then .ok false
  else
    match run_command env "uv --version" false with
    | .error f => .error f
    | .ok none => .ok false
    | .ok (some uv_result) =>
      if uv_result.returncode ≠ 0 then .ok false
      else
        match run_command env "poetry --version" false with
        | .error f => .error f
        | .ok _ => .ok true

/-- The `(original, backup)` pairs of `backup_existing_files`. -/
def files_to_backup : List (String × String) :=
  [("pyproject.toml", "pyproject.poetry.toml"),
   ("poetry.lock", "poetry.lock.bak")]

/-- `backup_existing_files()`: copy each original to its backup name when
the original exists. -/
def backup_existing_files (fs : FS) : FS :=
  files_to_backup.foldl
    (fun acc pair =>
      if pathExists acc pair.1 then copy2 pair.1 pair.2 acc else acc)
    fs

/-- `setup_uv_configuration()`: copy `pyproject.uv.toml` over
`pyproject.toml` when present; report `false` when it is absent. -/
def setup_uv_configuration (fs : FS) : FS × Bool :=
  if pathExists fs "pyproject.uv.toml" then
    (copy2 "pyproject.uv.toml" "pyproject.toml" fs, true)
  else (fs, false)

/-- `install_dependencies()`: `uv sync --dev` must exit zero. -/
def install_dependencies (env : Env) : Except Fault Bool :=
  match run_command env "uv sync --dev" true with
  | .error f => .error f
  | .ok none => .ok false
  | .ok (some result) =>
    if result.returncode ≠ 0 then .ok false else .ok true

/-- `setup_pre_commit()`: advisory hook installation. -/
def setup_pre_commit (env : Env) : Except Fault Bool :=
  match run_command env "uv run pre-commit install" true with
  | .error f => .error f
  | .ok none => .ok false
  | .ok (some result) =>
    if result.returncode ≠ 0 then .ok false else .ok true

/-- The inline `uv run python -c 'import themefinder; ...'` command. -/
def import_check_cmd : String :=
  "uv run python -c \x27import themefinder; print(\x22ThemeFinder import successful\x22)\x27"

/-- `verify_installation()`: a Python version check, a ThemeFinder import
check, and a pytest version probe; failure of either of the first two
makes verification report `false`, the pytest probe is only printed. -/
def verify_installation (env : Env) : Except Fault Bool :=
  match run_command env "uv run python --version" true with
  | .error f => .error f
  | .ok none => .ok false
  | .ok (some r1) =>
    if r1.returncode ≠ 0 then .ok false
    else
      match run_command env import_check_cmd true with
      | .error f => .error f
      | .ok none => .ok false
      | .ok (some r2) =>
        if r2.returncode ≠ 0 then .ok false
        else
          match run_command env "uv run pytest --version" true with
          | .error f => .error f
          | .ok _ => .ok true

/-- The paths that `cleanup_poetry_files` removes. -/
def files_to_remove : List String :=
  ["poetry.lock.bak", "pyproject.poetry.toml", ".venv"]

/-- `cleanup_poetry_files(keep_backups)`: when backups are not kept,
delete each backup artifact (and the `.venv` directory) that exists. -/
def cleanup_poetry_files (keep_backups : Bool) (fs : FS) : FS :=
  if keep_backups then fs
  else
    files_to_remove.foldl
      (fun acc p => if pathExists acc p then removePath p acc else acc)
      fs

/-- The CLI flags. -/
structure Args where
  cleanup : Bool
  force : Bool
deriving DecidableEq

/-- The part of the `try` block after `backup_existing_files`:
configuration swap, dependency install, pre-commit hooks, verification,
cleanup.  `.error (f, fs)` records a fault raised inside the block
together with the filesystem state at that moment; `.ok (code, fs)` is
the `sys.exit` code (0 = fall through successfully) and final state. -/
def workflow_after_backup (args : Args) (env : Env) (fs1 : FS) :
    Except (Fault × FS) (Nat × FS) :=
  let swapped := setup_uv_configuration fs1
  if ¬ swapped.2 then .ok (1, swapped.1)
  else
    match install_dependencies env with
    | .error f => .error (f, swapped.1)
    | .ok false => .ok (1, swapped.1)
    | .ok true =>
      match setup_pre_commit env with
      | .error f => .error (f, swapped.1)
      | .ok _ =>
        match verify_installation env with
        | .error f => .error (f, swapped.1)
        | .ok _verified =>
          .ok (0, cleanup_poetry_files (!args.cleanup) swapped.1)

/-- The whole `try` block of `main`: backups first, then the rest. -/
def workflow (args : Args) (env : Env) (fs : FS) :
    Except (Fault × FS) (Nat × FS) :=
  workflow_after_backup args env (backup_existing_files fs)

/-- `main()`: prerequisite gate, already-migrated no-op gate, then the
protected workflow whose faults (`KeyboardInterrupt` / `Exception`) are
caught and turned into exit code 1.  `.ok (code, fs)` is the process
exit status and final filesystem; `.error f` is a fault raised outside
the `try` block (during the prerequisite probes), which the script does
not catch. -/
def main (args : Args) (env : Env) (fs : FS) : Except Fault (Nat × FS) :=
  match check_prerequisites env fs with
  | .error f => .error f
  | .ok false => .ok (1, fs)
  | .ok true =>
    if pathExists fs "uv.lock" && !args.force then .ok (0, fs)
    else
      match workflow args env fs with
      | .error (_, fsAtFault) => .ok (1, fsAtFault)
      | .ok r => .ok r

/-- A filesystem with the Poetry configuration, lock file and the
pre-authored UV configuration present. -/
def fsFull : FS := fun p =>
  if p = "pyproject.toml" then some "poetry-config"
  else if p = "poetry.lock" then some "poetry-lock"
  else if p = "pyproject.uv.toml" then some "uv-config"
  else none

/-- A command oracle on which every command succeeds with return code 0. -/
def envZero : Env := fun _ => .ok 0

/-- No flags. -/
def argsNone : Args := ⟨false, false⟩

example : check_prerequisites envZero fsFull = .ok true := rfl

example :
    (backup_existing_files fsFull) "pyproject.poetry.toml"
      = some "poetry-config" := rfl

example :
    main argsNone envZero fsFull
      = .ok (0, (setup_uv_configuration (backup_existing_files fsFull)).1) := rfl

/-! ### Pointwise evaluation lemmas -/

lemma copy2_apply (src dst : String) (fs : FS) (p : String) :
    copy2 src dst fs p = if p = dst then fs src else fs p := rfl

lemma removePath_apply (target : String) (fs : FS) (p : String) :
    removePath target fs p = if p = target then none else fs p := rfl

lemma backup_existing_files_apply (fs : FS) (p : String) :
    backup_existing_files fs p =
      if p = "pyproject.poetry.toml" ∧ (fs "pyproject.toml").isSome then
        fs "pyproject.toml"
      else if p = "poetry.lock.bak" ∧ (fs "poetry.lock").isSome then
        fs "poetry.lock"
      else fs p := by
  unfold backup_existing_files files_to_backup
  simp only [List.foldl, pathExists]
  by_cases h1 : (fs "pyproject.toml").isSome <;>
    by_cases h2 : (fs "poetry.lock").isSome <;>
    by_cases e1 : p = "pyproject.poetry.toml" <;>
    by_cases e2 : p = "poetry.lock.bak" <;>
    simp_all [copy2_apply]

lemma cleanup_true (fs : FS) : cleanup_poetry_files true fs = fs := rfl

lemma remove_if_exists_apply (g : FS) (k q : String) :
    (if pathExists g k then removePath k g else g) q =
      if q = k then none else g q := by
  by_cases hq : q = k
  · subst hq
    cases hgk : pathExists g q
    · have : g q = none := by
        unfold pathExists at hgk
        simpa using hgk
      simp [hgk, this]
    · simp [hgk, removePath_apply]
  · cases hgk : pathExists g k <;> simp [hgk, removePath_apply, hq]

lemma cleanup_false_apply (fs : FS) (p : String) :
    cleanup_poetry_files false fs p =
      if p = "poetry.lock.bak" ∨ p = "pyproject.poetry.toml" ∨ p = ".venv" then
        none
      else fs p := by
  unfold cleanup_poetry_files files_to_remove
  simp only [Bool.false_eq_true, if_false, List.foldl]
  rw [remove_if_exists_apply, remove_if_exists_apply, remove_if_exists_apply]
  by_cases e1 : p = "poetry.lock.bak" <;>
    by_cases e2 : p = "pyproject.poetry.toml" <;>
    by_cases e3 : p = ".venv" <;>
    simp_all

lemma setup_uv_snd (fs : FS) :
    (setup_uv_configuration fs).2 = pathExists fs "pyproject.uv.toml" := by
  unfold setup_uv_configuration
  split <;> simp_all

lemma setup_uv_fst_apply (fs : FS) (p : String) :
    (setup_uv_configuration fs).1 p =
      if pathExists fs "pyproject.uv.toml" ∧ p = "pyproject.toml" then
        fs "pyproject.uv.toml"
      else fs p := by
  unfold setup_uv_configuration
  split <;> rename_i h <;> by_cases e : p = "pyproject.toml" <;>
    simp_all [copy2_apply]

/-! ### Characterizations of the command-running steps -/

lemma check_prerequisites_marker_absent (env : Env) (fs : FS)
    (h : fs "pyproject.toml" = none) :
    check_prerequisites env fs = .ok false := by
  unfold check_prerequisites
  simp [pathExists, h]

lemma check_prerequisites_uv_fails (env : Env) (fs : FS) (rc : Int)
    (huv : env "uv --version" = .ok rc) (hrc : rc ≠ 0) :
    check_prerequisites env fs = .ok false := by
  unfold check_prerequisites run_command
  cases hm : fs "pyproject.toml" <;> simp [pathExists, hm, huv, hrc]

lemma check_prerequisites_ok (env : Env) (fs : FS) (m : Int)
    (hmarker : (fs "pyproject.toml").isSome)
    (huv : env "uv --version" = .ok 0)
    (hpoetry : env "poetry --version" = .ok m) :
    check_prerequisites env fs = .ok true := by
  unfold check_prerequisites run_command
  simp [pathExists, hmarker, huv, hpoetry]

lemma install_dependencies_of_ok (env : Env) (rc : Int)
    (h : env "uv sync --dev" = .ok rc) :
    install_dependencies env = .ok (decide (rc = 0)) := by
  unfold install_dependencies run_command
  by_cases hrc : rc = 0 <;> simp [h, hrc]

lemma setup_pre_commit_of_ok (env : Env) (rc : Int)
    (h : env "uv run pre-commit install" = .ok rc) :
    setup_pre_commit env = .ok (decide (rc = 0)) := by
  unfold setup_pre_commit run_command
  by_cases hrc : rc = 0 <;> simp [h, hrc]

lemma verify_installation_of_ok (env : Env) (a b d : Int)
    (h1 : env "uv run python --version" = .ok a)
    (h2 : env import_check_cmd = .ok b)
    (h3 : env "uv run pytest --version" = .ok d) :
    verify_installation env = .ok (decide (a = 0) && decide (b = 0)) := by
  unfold verify_installation run_command
  by_cases ha : a = 0 <;> by_cases hb : b = 0 <;> by_cases hd : d = 0 <;>
    simp [h1, h2, h3, ha, hb, hd]

lemma check_prerequisites_false_iff (env : Env) (fs : FS) :
    check_prerequisites env fs = .ok false ↔
      fs "pyproject.toml" = none ∨
        ((fs "pyproject.toml").isSome ∧
          ∃ rc, env "uv --version" = .ok rc ∧ rc ≠ 0) := by
  unfold check_prerequisites run_command
  cases hm : fs "pyproject.toml" with
  | none => simp [pathExists, hm]
  | some v =>
    cases hu : env "uv --version" with
    | error f => simp [pathExists, hm, hu]
    | ok rc =>
      by_cases hrc : rc = 0
      · subst hrc
        cases hp : env "poetry --version" <;> simp [pathExists, hm, hu, hp]
      · simp [pathExists, hm, hu, hrc]

/-! ### Decomposition of `main` and `workflow` -/

lemma main_of_prereq_fault (args : Args) (env : Env) (fs : FS) (f : Fault)
    (hpre : check_prerequisites env fs = .error f) :
    main args env fs = .error f := by
  unfold main
  rw [hpre]

lemma main_of_prereq_false (args : Args) (env : Env) (fs : FS)
    (hpre : check_prerequisites env fs = .ok false) :
    main args env fs = .ok (1, fs) := by
  unfold main
  rw [hpre]

lemma main_of_noop (args : Args) (env : Env) (fs : FS)
    (hpre : check_prerequisites env fs = .ok true)
    (hgate : (pathExists fs "uv.lock" && !args.force) = true) :
    main args env fs = .ok (0, fs) := by
  unfold main
  rw [hpre]
  simp [hgate]

lemma main_of_reach (args : Args) (env : Env) (fs : FS)
    (hpre : check_prerequisites env fs = .ok true)
    (hgate : (pathExists fs "uv.lock" && !args.force) = false) :
    main args env fs =
      match workflow args env fs with
      | .error (_, fsAtFault) => .ok (1, fsAtFault)
      | .ok r => .ok r := by
  unfold main
  rw [hpre]
  simp [hgate]

lemma workflow_of_config_absent (args : Args) (env : Env) (fs : FS)
    (hsnd : (setup_uv_configuration (backup_existing_files fs)).2 = false) :
    workflow args env fs =
      .ok (1, (setup_uv_configuration (backup_existing_files fs)).1) := by
  unfold workflow workflow_after_backup
  simp [hsnd]

lemma workflow_of_install_fail (args : Args) (env : Env) (fs : FS)
    (hsnd : (setup_uv_configuration (backup_existing_files fs)).2 = true)
    (hinst : install_dependencies env = .ok false) :
    workflow args env fs =
      .ok (1, (setup_uv_configuration (backup_existing_files fs)).1) := by
  unfold workflow workflow_after_backup
  simp [hsnd, hinst]

lemma workflow_of_success (args : Args) (env : Env) (fs : FS)
    (hb vb : Bool)
    (hsnd : (setup_uv_configuration (backup_existing_files fs)).2 = true)
    (hinst : install_dependencies env = .ok true)
    (hhook : setup_pre_commit env = .ok hb)
    (hver : verify_installation env = .ok vb) :
    workflow args env fs =
      .ok (0, cleanup_poetry_files (!args.cleanup)
              (setup_uv_configuration (backup_existing_files fs)).1) := by
  unfold workflow workflow_after_backup
  simp [hsnd, hinst, hhook, hver]

lemma workflow_ok_cases (args : Args) (env : Env) (fs : FS) (n : ℕ) (g : FS)
    (h : workflow args env fs = .ok (n, g)) :
    (n = 0 ∧
      (setup_uv_configuration (backup_existing_files fs)).2 = true ∧
      install_dependencies env = .ok true ∧
      (∃ hb, setup_pre_commit env = .ok hb) ∧
      (∃ vb, verify_installation env = .ok vb) ∧
      g = cleanup_poetry_files (!args.cleanup)
            (setup_uv_configuration (backup_existing_files fs)).1) ∨
    (n = 1 ∧
      g = (setup_uv_configuration (backup_existing_files fs)).1 ∧
      ((setup_uv_configuration (backup_existing_files fs)).2 = false ∨
        ((setup_uv_configuration (backup_existing_files fs)).2 = true ∧
          install_dependencies env = .ok false))) := by
  unfold workflow workflow_after_backup at h
  cases hsnd : (setup_uv_configuration (backup_existing_files fs)).2 with
  | false => simp_all
  | true =>
    cases hinst : install_dependencies env with
    | error f => simp_all
    | ok ib =>
      cases ib with
      | false => simp_all
      | true =>
        cases hhook : setup_pre_commit env with
        | error f => simp_all
        | ok hb =>
          cases hver : verify_installation env with
          | error f => simp_all
          | ok vb => simp_all

/-! ### Concrete fixtures for witnesses and counterexamples -/

/-- A filesystem holding only the new tool's lock file (`uv.lock`); in
particular the marker file `pyproject.toml` is absent. -/
def fsLockOnly : FS := fun p => if p = "uv.lock" then some "uv-lock" else none

/-- A filesystem of an already-migrated project: marker present,
`uv.lock` present, no `pyproject.uv.toml`. -/
def fsMigrated : FS := fun p =>
  if p = "pyproject.toml" then some "poetry-config"
  else if p = "uv.lock" then some "uv-lock"
  else none

/-- A filesystem with only the marker file present. -/
def fsPoetryOnly : FS := fun p =>
  if p = "pyproject.toml" then some "poetry-config" else none

/-- `--cleanup` supplied, `--force` absent. -/
def argsCleanup : Args := ⟨true, false⟩

/-- Every command succeeds except the ThemeFinder import smoke test. -/
def envImportFail : Env := fun cmd =>
  if cmd = import_check_cmd then .ok 1 else .ok 0

/-- Every command succeeds except `uv sync --dev`. -/
def envSyncFail : Env := fun cmd =>
  if cmd = "uv sync --dev" then .ok 1 else .ok 0

/-! ### Claims -/

/-- C4: whenever the original `pyproject.toml` existed at the start, the
state to which the configuration swap is applied — `workflow` runs
`workflow_after_backup` on `backup_existing_files fs` — already contains
the backup `pyproject.poetry.toml` with the original's content, and that
backup is still intact immediately after the swap overwrites the active
configuration file. -/
theorem c4_backup_precedes_swap (args : Args) (env : Env) (fs : FS)
    (a : String) (h : fs "pyproject.toml" = some a) :
    (backup_existing_files fs) "pyproject.poetry.toml" = some a ∧
    (setup_uv_configuration (backup_existing_files fs)).1
      "pyproject.poetry.toml" = some a ∧
    workflow args env fs =
      workflow_after_backup args env (backup_existing_files fs) := by
  have h1 : (backup_existing_files fs) "pyproject.poetry.toml" = some a := by
    rw [backup_existing_files_apply]
    simp [h]
  refine ⟨h1, ?_, rfl⟩
  rw [setup_uv_fst_apply]
  simp [h1]

theorem c4_witness :
    (backup_existing_files fsPoetryOnly) "pyproject.poetry.toml"
        = some "poetry-config" ∧
      (setup_uv_configuration (backup_existing_files fsPoetryOnly)).1
        "pyproject.poetry.toml" = some "poetry-config" ∧
      workflow argsNone envZero fsPoetryOnly =
        workflow_after_backup argsNone envZero
          (backup_existing_files fsPoetryOnly) :=
  c4_backup_precedes_swap argsNone envZero fsPoetryOnly "poetry-config" rfl

/-- C5 counterexample: a run with the pre-authored target configuration
file absent that exits with status 0 (the already-migrated no-op path),
refuting "for every run in which `pyproject.uv.toml` is absent, the tool
exits with failure status". -/
theorem c5_counterexample :
    fsMigrated "pyproject.uv.toml" = none ∧
    main argsNone envZero fsMigrated = .ok (0, fsMigrated) :=
  ⟨rfl, rfl⟩

/-- C5 (amended): in every run in which `pyproject.uv.toml` is absent,
the already-migrated no-op is not taken (`uv.lock` absent or `--force`
supplied) and the process terminates via `sys.exit`, the tool exits with
status 1 and the active `pyproject.toml` still has its original content
— whether the run stops at the prerequisite check or at the
configuration swap. -/
theorem c5_config_absent_fails_unchanged (args : Args) (env : Env) (fs : FS)
    (habs : fs "pyproject.uv.toml" = none)
    (hnoop : fs "uv.lock" = none ∨ args.force = true)
    (code : ℕ) (fs1 : FS)
    (hrun : main args env fs = .ok (code, fs1)) :
    code = 1 ∧ fs1 "pyproject.toml" = fs "pyproject.toml" := by
  cases hpre : check_prerequisites env fs with
  | error f =>
    rw [main_of_prereq_fault args env fs f hpre] at hrun
    cases hrun
  | ok pb =>
    cases pb with
    | false =>
      rw [main_of_prereq_false args env fs hpre] at hrun
      simp only [Except.ok.injEq, Prod.mk.injEq] at hrun
      obtain ⟨hcode, hfs⟩ := hrun
      exact ⟨hcode.symm, by rw [← hfs]⟩
    | true =>
      have hgate : (pathExists fs "uv.lock" && !args.force) = false := by
        rcases hnoop with h | h
        · simp [pathExists, h]
        · simp [h]
      have habs1 : (backup_existing_files fs) "pyproject.uv.toml" = none := by
        rw [backup_existing_files_apply]
        simp [habs]
      have hsnd : (setup_uv_configuration (backup_existing_files fs)).2
          = false := by
        rw [setup_uv_snd]
        simp [pathExists, habs1]
      have hfst : (setup_uv_configuration (backup_existing_files fs)).1
          = backup_existing_files fs := by
        unfold setup_uv_configuration
        simp [pathExists, habs1]
      rw [main_of_reach args env fs hpre hgate,
        workflow_of_config_absent args env fs hsnd, hfst] at hrun
      simp only [Except.ok.injEq, Prod.mk.injEq] at hrun
      obtain ⟨hcode, hfs⟩ := hrun
      refine ⟨hcode.symm, ?_⟩
      rw [← hfs, backup_existing_files_apply]
      simp

theorem c5_witness :
    (1 : ℕ) = 1 ∧
      (backup_existing_files fsPoetryOnly) "pyproject.toml"
        = fsPoetryOnly "pyproject.toml" :=
  c5_config_absent_fails_unchanged argsNone envZero fsPoetryOnly rfl
    (Or.inl rfl) 1 (backup_existing_files fsPoetryOnly) rfl

/-- C6 counterexample: a run with `uv.lock` present and `--force` absent
that exits with status 1 (the marker file is missing, so the prerequisite
check fails first), refuting "for every run in which the prior-migration
marker exists and `--force` is not supplied, the tool exits with success
status". -/
theorem c6_counterexample :
    (fsLockOnly "uv.lock").isSome = true ∧
    argsNone.force = false ∧
    main argsNone envZero fsLockOnly = .ok (1, fsLockOnly) :=
  ⟨rfl, rfl, rfl⟩

/-- C6 (amended): in every run in which the prerequisite check passes,
`uv.lock` exists and `--force` is not supplied, the tool exits with
status 0 and the filesystem is returned unchanged (no backup created,
nothing overwritten, nothing deleted). -/
theorem c6_noop_when_already_migrated (args : Args) (env : Env) (fs : FS)
    (hpre : check_prerequisites env fs = .ok true)
    (hlock : (fs "uv.lock").isSome)
    (hforce : args.force = false) :
    main args env fs = .ok (0, fs) := by
  apply main_of_noop args env fs hpre
  simp [pathExists, hlock, hforce]

theorem c6_witness : main argsNone envZero fsMigrated = .ok (0, fsMigrated) :=
  c6_noop_when_already_migrated argsNone envZero fsMigrated rfl rfl rfl

/-- C7: in every run in which the marker file `pyproject.toml` is absent,
or `uv --version` exits non-zero, the tool exits with status 1 and the
filesystem is returned unchanged (no file mutation of any kind). -/
theorem c7_prereq_failure_no_mutation (args : Args) (env : Env) (fs : FS)
    (h : fs "pyproject.toml" = none ∨
      ∃ rc, env "uv --version" = .ok rc ∧ rc ≠ 0) :
    main args env fs = .ok (1, fs) := by
  apply main_of_prereq_false
  rcases h with hm | ⟨rc, hu, hrc⟩
  · exact check_prerequisites_marker_absent env fs hm
  · exact check_prerequisites_uv_fails env fs rc hu hrc

theorem c7_witness :
    main argsNone envZero fsLockOnly = .ok (1, fsLockOnly) :=
  c7_prereq_failure_no_mutation argsNone envZero fsLockOnly (Or.inl rfl)

/-- C10: the prerequisite check takes priority over the already-migrated
check — with the marker file absent the tool exits with status 1 (and
mutates nothing) even when `uv.lock` is present and `--force` is absent. -/
theorem c10_prereq_priority_over_noop (args : Args) (env : Env) (fs : FS)
    (hmarker : fs "pyproject.toml" = none)
    (_hlock : (fs "uv.lock").isSome)
    (_hforce : args.force = false) :
    main args env fs = .ok (1, fs) :=
  main_of_prereq_false args env fs
    (check_prerequisites_marker_absent env fs hmarker)

theorem c10_witness :
    main argsNone envZero fsLockOnly = .ok (1, fsLockOnly) :=
  c10_prereq_priority_over_noop argsNone envZero fsLockOnly rfl rfl rfl

/-- C1: in a run where `pyproject.toml`, `poetry.lock` and
`pyproject.uv.toml` all exist, every external command succeeds, the
migration workflow is actually entered (not the already-migrated no-op)
and `--cleanup` is not supplied, the tool exits with status 0,
`pyproject.poetry.toml` holds the original `pyproject.toml` content,
`poetry.lock.bak` holds the original `poetry.lock` content, and the
active `pyproject.toml` holds the content of `pyproject.uv.toml`. -/
theorem c1_successful_run_swaps_and_backs_up (args : Args) (env : Env)
    (fs : FS) (a b c : String)
    (horig : fs "pyproject.toml" = some a)
    (hlock : fs "poetry.lock" = some b)
    (huv : fs "pyproject.uv.toml" = some c)
    (hcmd : ∀ cmd, env cmd = .ok 0)
    (hnc : args.cleanup = false)
    (hrun : fs "uv.lock" = none ∨ args.force = true) :
    ∃ fs2, main args env fs = .ok (0, fs2) ∧
      fs2 "pyproject.poetry.toml" = some a ∧
      fs2 "poetry.lock.bak" = some b ∧
      fs2 "pyproject.toml" = fs "pyproject.uv.toml" ∧
      fs2 "pyproject.toml" = some c := by
  have hpre : check_prerequisites env fs = .ok true :=
    check_prerequisites_ok env fs 0 (by simp [horig]) (hcmd _) (hcmd _)
  have hgate : (pathExists fs "uv.lock" && !args.force) = false := by
    rcases hrun with h | h
    · simp [pathExists, h]
    · simp [h]
  have hb1 : (backup_existing_files fs) "pyproject.poetry.toml" = some a := by
    rw [backup_existing_files_apply]
    simp [horig]
  have hb2 : (backup_existing_files fs) "poetry.lock.bak" = some b := by
    rw [backup_existing_files_apply]
    simp [horig, hlock]
  have huv1 : (backup_existing_files fs) "pyproject.uv.toml" = some c := by
    rw [backup_existing_files_apply]
    simp [huv]
  have hsnd : (setup_uv_configuration (backup_existing_files fs)).2 = true := by
    rw [setup_uv_snd]
    simp [pathExists, huv1]
  have hinst : install_dependencies env = .ok true := by
    simpa using install_dependencies_of_ok env 0 (hcmd _)
  have hhook : setup_pre_commit env = .ok true := by
    simpa using setup_pre_commit_of_ok env 0 (hcmd _)
  have hver : verify_installation env = .ok true := by
    simpa using verify_installation_of_ok env 0 0 0 (hcmd _) (hcmd _) (hcmd _)
  refine ⟨(setup_uv_configuration (backup_existing_files fs)).1, ?_, ?_, ?_, ?_, ?_⟩
  · rw [main_of_reach args env fs hpre hgate,
      workflow_of_success args env fs true true hsnd hinst hhook hver, hnc]
    rfl
  · rw [setup_uv_fst_apply]
    simp [hb1]
  · rw [setup_uv_fst_apply]
    simp [hb2]
  · rw [setup_uv_fst_apply]
    simp [pathExists, huv1, huv]
  · rw [setup_uv_fst_apply]
    simp [pathExists, huv1]

theorem c1_witness :
    ∃ fs2, main argsNone envZero fsFull = .ok (0, fs2) ∧
      fs2 "pyproject.poetry.toml" = some "poetry-config" ∧
      fs2 "poetry.lock.bak" = some "poetry-lock" ∧
      fs2 "pyproject.toml" = fsFull "pyproject.uv.toml" ∧
      fs2 "pyproject.toml" = some "uv-config" :=
  c1_successful_run_swaps_and_backs_up argsNone envZero fsFull
    "poetry-config" "poetry-lock" "uv-config" rfl rfl rfl (fun _ => rfl) rfl
    (Or.inl rfl)

/-- C8: in a run where all files are present, the workflow is entered,
prior commands succeed but `uv sync --dev` exits non-zero, the tool exits
with status 1 while both backup files have already been created and the
active `pyproject.toml` has already been overwritten with the content of
`pyproject.uv.toml` (partial mutation remains on disk). -/
theorem c8_install_failure_partial_mutation (args : Args) (env : Env)
    (fs : FS) (a b c : String) (rc : Int)
    (horig : fs "pyproject.toml" = some a)
    (hlock : fs "poetry.lock" = some b)
    (huv : fs "pyproject.uv.toml" = some c)
    (hpre : check_prerequisites env fs = .ok true)
    (hgate : (pathExists fs "uv.lock" && !args.force) = false)
    (hsync : env "uv sync --dev" = .ok rc) (hrc : rc ≠ 0) :
    ∃ fs2, main args env fs = .ok (1, fs2) ∧
      fs2 "pyproject.poetry.toml" = some a ∧
      fs2 "poetry.lock.bak" = some b ∧
      fs2 "pyproject.toml" = some c := by
  have hb1 : (backup_existing_files fs) "pyproject.poetry.toml" = some a := by
    rw [backup_existing_files_apply]
    simp [horig]
  have hb2 : (backup_existing_files fs) "poetry.lock.bak" = some b := by
    rw [backup_existing_files_apply]
    simp [horig, hlock]
  have huv1 : (backup_existing_files fs) "pyproject.uv.toml" = some c := by
    rw [backup_existing_files_apply]
    simp [huv]
  have hsnd : (setup_uv_configuration (backup_existing_files fs)).2 = true := by
    rw [setup_uv_snd]
    simp [pathExists, huv1]
  have hinst : install_dependencies env = .ok false := by
    simpa [hrc] using install_dependencies_of_ok env rc hsync
  refine ⟨(setup_uv_configuration (backup_existing_files fs)).1, ?_, ?_, ?_, ?_⟩
  · rw [main_of_reach args env fs hpre hgate,
      workflow_of_install_fail args env fs hsnd hinst]
  · rw [setup_uv_fst_apply]
    simp [hb1]
  · rw [setup_uv_fst_apply]
    simp [hb2]
  · rw [setup_uv_fst_apply]
    simp [pathExists, huv1]

theorem c8_witness :
    (1 : Int) ≠ 0 ∧
    ∃ fs2, main argsNone envSyncFail fsFull = .ok (1, fs2) ∧
      fs2 "pyproject.poetry.toml" = some "poetry-config" ∧
      fs2 "poetry.lock.bak" = some "poetry-lock" ∧
      fs2 "pyproject.toml" = some "uv-config" :=
  ⟨by decide,
    c8_install_failure_partial_mutation argsNone envSyncFail fsFull
      "poetry-config" "poetry-lock" "uv-config" 1 rfl rfl rfl rfl rfl rfl
      (by decide)⟩

/-- C9: in a run with `--cleanup` supplied that reaches cleanup on the
successful path, afterwards `poetry.lock.bak`, `pyproject.poetry.toml`
and `.venv` no longer exist; and with backups kept (no `--cleanup`) the
cleanup step deletes nothing at all. -/
theorem c9_cleanup_removes_backups (args : Args) (env : Env) (fs : FS)
    (hclean : args.cleanup = true)
    (hpre : check_prerequisites env fs = .ok true)
    (hgate : (pathExists fs "uv.lock" && !args.force) = false)
    (hsnd : (setup_uv_configuration (backup_existing_files fs)).2 = true)
    (hinst : install_dependencies env = .ok true)
    (hhook : ∃ hb, setup_pre_commit env = .ok hb)
    (hver : ∃ vb, verify_installation env = .ok vb) :
    (∃ fs2, main args env fs = .ok (0, fs2) ∧
      fs2 "poetry.lock.bak" = none ∧
      fs2 "pyproject.poetry.toml" = none ∧
      fs2 ".venv" = none) ∧
    ∀ g : FS, cleanup_poetry_files true g = g := by
  obtain ⟨hb, hhook⟩ := hhook
  obtain ⟨vb, hver⟩ := hver
  refine ⟨⟨cleanup_poetry_files (!args.cleanup)
      (setup_uv_configuration (backup_existing_files fs)).1, ?_, ?_, ?_, ?_⟩,
    cleanup_true⟩
  · rw [main_of_reach args env fs hpre hgate,
      workflow_of_success args env fs hb vb hsnd hinst hhook hver]
  · rw [hclean]
    rw [show (!true) = false from rfl, cleanup_false_apply]
    simp
  · rw [hclean]
    rw [show (!true) = false from rfl, cleanup_false_apply]
    simp
  · rw [hclean]
    rw [show (!true) = false from rfl, cleanup_false_apply]
    simp

theorem c9_witness :
    (∃ fs2, main argsCleanup envZero fsFull = .ok (0, fs2) ∧
      fs2 "poetry.lock.bak" = none ∧
      fs2 "pyproject.poetry.toml" = none ∧
      fs2 ".venv" = none) ∧
    ∀ g : FS, cleanup_poetry_files true g = g :=
  c9_cleanup_removes_backups argsCleanup envZero fsFull rfl rfl rfl rfl rfl
    ⟨true, rfl⟩ ⟨true, rfl⟩

/-- C3 counterexample: a run of the verification step in which the first
check (`uv run python --version`) succeeds yet verification reports
failure, because the second check (the ThemeFinder import smoke test)
exits non-zero — refuting "only the first check's failure causes
verification to report failure". -/
theorem c3_counterexample :
    envImportFail "uv run python --version" = .ok 0 ∧
    envImportFail import_check_cmd = .ok 1 ∧
    verify_installation envImportFail = .ok false :=
  ⟨rfl, rfl, rfl⟩

/-- C3 (amended): the verification step runs three checks; it reports
failure exactly when the environment version check or the import smoke
test exits non-zero (the test-runner version check never affects the
reported result), and on any verification failure the workflow still
proceeds through cleanup to the final report, exiting with status 0. -/
theorem c3_verification_failure_is_advisory (env : Env) (a b d : Int)
    (h1 : env "uv run python --version" = .ok a)
    (h2 : env import_check_cmd = .ok b)
    (h3 : env "uv run pytest --version" = .ok d) :
    (verify_installation env = .ok false ↔ (a ≠ 0 ∨ b ≠ 0)) ∧
    (verify_installation env = .ok true ↔ (a = 0 ∧ b = 0)) ∧
    (∀ (args : Args) (fs : FS),
      check_prerequisites env fs = .ok true →
      (pathExists fs "uv.lock" && !args.force) = false →
      (setup_uv_configuration (backup_existing_files fs)).2 = true →
      install_dependencies env = .ok true →
      (∃ hb, setup_pre_commit env = .ok hb) →
      main args env fs =
        .ok (0, cleanup_poetry_files (!args.cleanup)
                (setup_uv_configuration (backup_existing_files fs)).1)) := by
  have hv := verify_installation_of_ok env a b d h1 h2 h3
  refine ⟨?_, ?_, ?_⟩
  · rw [hv]
    by_cases ha : a = 0 <;> by_cases hb : b = 0 <;> simp [ha, hb]
  · rw [hv]
    by_cases ha : a = 0 <;> by_cases hb : b = 0 <;> simp [ha, hb]
  · intro args fs hpre hgate hsnd hinst hhook
    obtain ⟨hb, hhook⟩ := hhook
    rw [main_of_reach args env fs hpre hgate,
      workflow_of_success args env fs hb _ hsnd hinst hhook hv]

theorem c3_witness :
    (verify_installation envImportFail = .ok false ↔
      ((0 : Int) ≠ 0 ∨ (1 : Int) ≠ 0)) ∧
    (verify_installation envImportFail = .ok true ↔
      ((0 : Int) = 0 ∧ (1 : Int) = 0)) ∧
    (∀ (args : Args) (fs : FS),
      check_prerequisites envImportFail fs = .ok true →
      (pathExists fs "uv.lock" && !args.force) = false →
      (setup_uv_configuration (backup_existing_files fs)).2 = true →
      install_dependencies envImportFail = .ok true →
      (∃ hb, setup_pre_commit envImportFail = .ok hb) →
      main args envImportFail fs =
        .ok (0, cleanup_poetry_files (!args.cleanup)
                (setup_uv_configuration (backup_existing_files fs)).1)) :=
  c3_verification_failure_is_advisory envImportFail 0 1 0 rfl rfl rfl

/-- C2: for every run that terminates via `sys.exit` (a fault outside the
protected segment would instead propagate), the exit status is 0 exactly
on the already-migrated no-op path or the successful full-workflow path,
and 1 exactly on prerequisite failure (which holds exactly when the
marker file is absent or `uv --version` exits non-zero), absence of the
pre-authored target configuration, `uv sync --dev` failure, or a fault
(user interruption / uncaught exception) raised inside the protected
workflow segment. -/
theorem c2_exit_status_enumeration (args : Args) (env : Env) (fs : FS)
    (code : ℕ) (fs' : FS) (h : main args env fs = .ok (code, fs')) :
    (check_prerequisites env fs = .ok false ↔
      fs "pyproject.toml" = none ∨
        ((fs "pyproject.toml").isSome ∧
          ∃ rc, env "uv --version" = .ok rc ∧ rc ≠ 0)) ∧
    (code = 0 ↔
      (check_prerequisites env fs = .ok true ∧
        ((pathExists fs "uv.lock" && !args.force) = true ∨
          ((pathExists fs "uv.lock" && !args.force) = false ∧
            (setup_uv_configuration (backup_existing_files fs)).2 = true ∧
            install_dependencies env = .ok true ∧
            (∃ hb, setup_pre_commit env = .ok hb) ∧
            (∃ vb, verify_installation env = .ok vb))))) ∧
    (code = 1 ↔
      (check_prerequisites env fs = .ok false ∨
        (check_prerequisites env fs = .ok true ∧
          (pathExists fs "uv.lock" && !args.force) = false ∧
          ((setup_uv_configuration (backup_existing_files fs)).2 = false ∨
            ((setup_uv_configuration (backup_existing_files fs)).2 = true ∧
              install_dependencies env = .ok false) ∨
            (∃ f g, workflow args env fs = .error (f, g)))))) := by
  refine ⟨check_prerequisites_false_iff env fs, ?_⟩
  unfold main at h
  cases hpre : check_prerequisites env fs with
  | error f => rw [hpre] at h; cases h
  | ok pb =>
    rw [hpre] at h
    cases pb with
    | false =>
      simp only [Except.ok.injEq, Prod.mk.injEq] at h
      obtain ⟨hcode, -⟩ := h
      constructor
      · constructor
        · intro h0; omega
        · rintro ⟨hT, -⟩
          simp at hT
      · exact ⟨fun _ => Or.inl rfl, fun _ => hcode.symm⟩
    | true =>
      cases hgate : (pathExists fs "uv.lock" && !args.force) with
      | true =>
        rw [hgate] at h
        simp only [if_true, Except.ok.injEq, Prod.mk.injEq] at h
        obtain ⟨hcode, -⟩ := h
        constructor
        · exact ⟨fun _ => ⟨rfl, Or.inl rfl⟩, fun _ => hcode.symm⟩
        · constructor
          · intro h1; omega
          · rintro (hF | ⟨-, hgF, -⟩)
            · simp at hF
            · simp at hgF
      | false =>
        rw [hgate] at h
        simp only [Bool.false_eq_true, if_false] at h
        cases hwf : workflow args env fs with
        | error p =>
          obtain ⟨f, g⟩ := p
          rw [hwf] at h
          simp only [Except.ok.injEq, Prod.mk.injEq] at h
          obtain ⟨hcode, -⟩ := h
          constructor
          · constructor
            · intro h0; omega
            · rintro ⟨-, hgT | ⟨-, hsnd, hinst, ⟨hb, hhook⟩, ⟨vb, hver⟩⟩⟩
              · simp at hgT
              · rw [workflow_of_success args env fs hb vb hsnd hinst hhook hver]
                  at hwf
                cases hwf
          · exact ⟨fun _ => Or.inr ⟨rfl, rfl, Or.inr (Or.inr ⟨f, g, rfl⟩)⟩,
              fun _ => hcode.symm⟩
        | ok r =>
          obtain ⟨n, g⟩ := r
          rw [hwf] at h
          simp only [Except.ok.injEq, Prod.mk.injEq] at h
          obtain ⟨hcode, -⟩ := h
          rcases workflow_ok_cases args env fs n g hwf with
            ⟨hn0, hsnd, hinst, hhook, hver, -⟩ | ⟨hn1, -, hrest⟩
          · subst hn0
            constructor
            · exact ⟨fun _ => ⟨rfl, Or.inr ⟨rfl, hsnd, hinst, hhook, hver⟩⟩,
                fun _ => hcode.symm⟩
            · constructor
              · intro h1; omega
              · rintro (hF | ⟨-, -, hsF | ⟨-, hiF⟩ | ⟨f, g', hwfE⟩⟩)
                · simp at hF
                · rw [hsnd] at hsF; simp at hsF
                · rw [hinst] at hiF; simp at hiF
                · simp at hwfE
          · subst hn1
            constructor
            · constructor
              · intro h0; omega
              · rintro ⟨-, hgT | ⟨-, hsnd, hinst, -, -⟩⟩
                · simp at hgT
                · rcases hrest with hsF | ⟨-, hiF⟩
                  · rw [hsnd] at hsF; simp at hsF
                  · rw [hinst] at hiF; simp at hiF
            · exact ⟨fun _ => Or.inr ⟨rfl, rfl,
                hrest.elim Or.inl (fun hx => Or.inr (Or.inl hx))⟩,
                fun _ => hcode.symm⟩

theorem c2_witness :
    (check_prerequisites envZero fsFull = .ok false ↔
      fsFull "pyproject.toml" = none ∨
        ((fsFull "pyproject.toml").isSome ∧
          ∃ rc, envZero "uv --version" = .ok rc ∧ rc ≠ 0)) ∧
    ((0 : ℕ) = 0 ↔
      (check_prerequisites envZero fsFull = .ok true ∧
        ((pathExists fsFull "uv.lock" && !argsNone.force) = true ∨
          ((pathExists fsFull "uv.lock" && !argsNone.force) = false ∧
            (setup_uv_configuration (backup_existing_files fsFull)).2 = true ∧
            install_dependencies envZero = .ok true ∧
            (∃ hb, setup_pre_commit envZero = .ok hb) ∧
            (∃ vb, verify_installation envZero = .ok vb))))) ∧
    ((0 : ℕ) = 1 ↔
      (check_prerequisites envZero fsFull = .ok false ∨
        (check_prerequisites envZero fsFull = .ok true ∧
          (pathExists fsFull "uv.lock" && !argsNone.force) = false ∧
          ((setup_uv_configuration (backup_existing_files fsFull)).2 = false ∨
            ((setup_uv_configuration (backup_existing_files fsFull)).2 = true ∧
              install_dependencies envZero = .ok false) ∨
            (∃ f g, workflow argsNone envZero fsFull = .error (f, g)))))) :=
  c2_exit_status_enumeration argsNone envZero fsFull 0
    (setup_uv_configuration (backup_existing_files fsFull)).1 rfl

end MigrateToUv
